import Mathlib

/-!
Shallow embedding of the GroomingAlertSystem controller (Electron main process,
`src/main.js`, together with the renderer's settings form handler). The
controller keeps a mutable `settings` object, loads it from a JSON file at
startup, merges and persists updates through the `save-settings` IPC handler,
and dispatches announcements through the `play-announcement` IPC handler,
which issues an HTTP POST via axios. External effects (filesystem reads and
writes, JSON.parse, the network transport) are modelled as explicit
environment values; the code's control flow and data flow are translated
directly.
-/

set_option autoImplicit false

namespace GroomingAlert

/-- JSON-like values as they occur in the controller's settings object:
the code only ever stores strings (text-field values) and numbers
(the default port). Numbers are modelled as integers; only integer
numerics occur in the program. -/
inductive JVal where
  | str (s : String)
  | num (n : Int)
  deriving DecidableEq, Repr

/-- A JavaScript object as used for `settings`: an association list of
field names to values (no duplicate keys arise in the program; lookup
takes the first binding). -/
abbrev JObj := List (String × JVal)

/-- Property lookup: `o[k]`, `none` when the field is absent. -/
def jGet (o : JObj) (k : String) : Option JVal :=
  (o.find? (fun p => p.1 == k)).map (fun p => p.2)

/-- Whether field `k` is present in the object. -/
def hasKeyB (o : JObj) (k : String) : Bool :=
  (jGet o k).isSome

/-- Embeds the JavaScript object spread `\x7b...a, ...b\x7d`: the result has every
field of `b`, plus every field of `a` whose key `b` lacks (only lookup
semantics matter to the program; field order is not observed). -/
def spread (a b : JObj) : JObj :=
  a.filter (fun p => !(hasKeyB b p.1)) ++ b

/-- Embeds the initial value of the mutable `settings` variable
(src/src/main.js lines 6-9): a hard-coded address and port, and no
token/credential field at all. -/
def defaultSettings : JObj :=
  [("piAddress", JVal.str "192.168.1.100"), ("piPort", JVal.num 8080)]

/-- Embeds `settingsPath = path.join(app.getPath('userData'), 'settings.json')`;
the userData directory is an environment parameter. -/
def settingsPath (userData : String) : String :=
  userData ++ "/settings.json"

/-- Serialization of a settings value as `JSON.stringify` renders it
(string escaping is not modelled; no claim depends on it). -/
def jValJson : JVal → String
  | JVal.str s => "\"" ++ s ++ "\""
  | JVal.num n => toString n

/-- Embeds `JSON.stringify(settings, null, 2)`: the two-space-indented
JSON text written to the settings file. -/
def stringifySettings (o : JObj) : String :=
  "\x7b\n" ++ String.intercalate ",\n"
      (o.map (fun p => "  \"" ++ p.1 ++ "\": " ++ jValJson p.2)) ++ "\n\x7d"

/-- Filesystem operations a controller function can perform. `write` is
`fs.writeFileSync` (truncate-and-write of a whole file); `rename` is an
atomic replace (`fs.renameSync`), which the code never calls but which the
atomic-persistence claim is about. -/
inductive FsOp where
  | write (path : String) (content : String)
  | rename (src dst : String)
  deriving DecidableEq, Repr

/-- Filesystem state: the contents of each file, by path. -/
abbrev FileSys := String → Option String

/-- Effect of one completed filesystem operation. -/
def applyOp (fs : FileSys) : FsOp → FileSys
  | FsOp.write p c => fun q => if q = p then some c else fs q
  | FsOp.rename src dst =>
      fun q => if q = dst then fs src else if q = src then none else fs q

/-- Effect of a completed run of a list of filesystem operations. -/
def runOps (fs : FileSys) (ops : List FsOp) : FileSys :=
  ops.foldl applyOp fs

/-- Filesystem state when the process is interrupted `k` characters into
the first pending operation: a file `write` in progress has truncated the
target and emitted only a prefix of the content; a `rename` either
happened entirely or (as here) not yet; later operations never run. -/
def interruptedRun (fs : FileSys) (ops : List FsOp) (k : Nat) : FileSys :=
  match ops with
  | [] => fs
  | FsOp.write p c :: _ => fun q => if q = p then some (c.take k) else fs q
  | FsOp.rename _ _ :: _ => fs

/-- Embeds `saveSettings` (src/src/main.js lines 23-29): the filesystem
operations it attempts — a single direct `fs.writeFileSync` of the
serialized settings to the settings path. No temporary file, no rename. -/
def saveSettingsOps (userData : String) (settings : JObj) : List FsOp :=
  [FsOp.write (settingsPath userData) (stringifySettings settings)]

/-- Outcome of the write attempt inside `saveSettings`, as decided by the
filesystem environment: either it succeeds or `fs.writeFileSync` throws. -/
inductive WriteOutcome where
  | ok
  | fsError (message : String)
  deriving DecidableEq, Repr

/-- Embeds the `try/catch` of `saveSettings`: a thrown filesystem error is
caught and logged via `console.error`; nothing else happens. Returns the
log lines produced. -/
def saveSettingsLogs : WriteOutcome → List String
  | WriteOutcome.ok => []
  | WriteOutcome.fsError m => ["Error saving settings: " ++ m]

/-- Result object returned by the `save-settings` IPC handler. -/
structure SaveResult where
  success : Bool
  deriving DecidableEq, Repr

/-- Embeds the `save-settings` IPC handler (src/src/main.js lines 77-81):
`settings = \x7b ...settings, ...newSettings \x7d; saveSettings(); return
\x7b success: true \x7d`. Takes the current settings state and the supplied
object, plus the filesystem outcome of the write; returns the new settings
state, the IPC result, and the console log lines. -/
def saveSettingsHandler (settings newSettings : JObj) (w : WriteOutcome) :
    JObj × SaveResult × List String :=
  (spread settings newSettings, SaveResult.mk true, saveSettingsLogs w)

/-- Embeds the renderer's save-button click handler: it reads the raw text
of the address and port form fields and submits them, unvalidated, as the
new settings (the port travels as the string the operator typed). -/
def saveBtnSettings (addressField portField : String) : JObj :=
  [("piAddress", JVal.str addressField), ("piPort", JVal.str portField)]

/-- Joint outcome of the external calls inside `loadSettings`
(`fs.existsSync`, `fs.readFileSync`, `JSON.parse`): the file is absent,
the read throws, the parse throws, or the parse yields an object. -/
inductive LoadEvent where
  | absent
  | readError
  | parseError
  | parsed (o : JObj)
  deriving DecidableEq, Repr

/-- Embeds `loadSettings` (src/src/main.js lines 13-21): when the file
exists and parses, the parsed object replaces `settings`; when the file is
absent, or the read or parse throws (the `catch` branch), `settings` is
left unchanged. -/
def loadSettings (ev : LoadEvent) (settings : JObj) : JObj :=
  match ev with
  | LoadEvent.absent => settings
  | LoadEvent.readError => settings
  | LoadEvent.parseError => settings
  | LoadEvent.parsed o => o

/-- Settings state after controller startup: `createWindow` calls
`loadSettings()` with `settings` still holding its initial value. -/
def startupSettings (ev : LoadEvent) : JObj :=
  loadSettings ev defaultSettings

/-- Embeds the `get-settings` IPC handler (src/src/main.js lines 73-75):
returns the current settings state unchanged. -/
def getSettingsHandler (settings : JObj) : JObj :=
  settings

/-- Embeds JavaScript template-literal interpolation of a property value,
as in the URL string of the play request: a string value is inserted raw,
a number is rendered in decimal, and a missing property renders as the
text "undefined". -/
def jInterp : Option JVal → String
  | some (JVal.str s) => s
  | some (JVal.num n) => toString n
  | none => "undefined"

/-- An HTTP request as the axios call in the `play-announcement` handler
configures it: method, URL, the headers the code sets explicitly, the JSON
body object, and the timeout option in milliseconds. -/
structure HttpRequest where
  method : String
  url : String
  headers : List (String × String)
  body : JObj
  timeoutMs : Nat
  deriving DecidableEq, Repr

/-- Embeds the request built by the `play-announcement` IPC handler
(src/src/main.js lines 87-91):
`axios.post('http://' + settings.piAddress + ':' + settings.piPort +
'/play', \x7b audio: audioFile \x7d, \x7b timeout: 5000 \x7d)`. The code passes no
headers configuration at all — in particular no Authorization header. -/
def playRequest (settings : JObj) (audioFile : String) : HttpRequest :=
  { method := "POST"
  , url := "http://" ++ jInterp (jGet settings "piAddress") ++ ":" ++
      jInterp (jGet settings "piPort") ++ "/play"
  , headers := []
  , body := [("audio", JVal.str audioFile)]
  , timeoutMs := 5000 }

/-- How the axios call terminates, as observed by the handler's
`try/catch`: the promise resolves (2xx response), or it rejects with an
error whose `message` string is all the handler ever inspects. An HTTP
error (the server answered with a non-2xx status) and a network-level
error (connection refused, resolution failure, timeout) are distinct
events at the transport, each carrying its message. -/
inductive Transport where
  | ok (status : Nat) (respBody : JObj)
  | httpError (status : Nat) (message : String)
  | netError (message : String)
  deriving DecidableEq, Repr

/-- Result object the `play-announcement` handler returns over IPC. -/
structure PlayResult where
  success : Bool
  message : String
  deriving DecidableEq, Repr

/-- Embeds the `play-announcement` IPC handler's result mapping
(src/src/main.js lines 83-99): a resolved call returns the fixed success
message; any thrown error — server rejection and network failure alike —
lands in the single `catch` branch, which returns `success: false` with
the error's message string appended to a fixed prefix. Only
`error.message` is read; the error's kind and any response body are
discarded. -/
def playAnnouncementHandler : Transport → PlayResult
  | Transport.ok _ _ =>
      PlayResult.mk true "Announcement sent successfully!"
  | Transport.httpError _ m =>
      PlayResult.mk false ("Failed to send announcement: " ++ m)
  | Transport.netError m =>
      PlayResult.mk false ("Failed to send announcement: " ++ m)

/-- Network environment for one dispatch: the daemon answers after a
delay, the connection attempt is refused after a delay, or the host never
answers at all (unreachable or non-listening, packets dropped). -/
inductive NetEnv where
  | responds (afterMs : Nat) (t : Transport)
  | refused (afterMs : Nat) (message : String)
  | silent
  deriving Repr

/-- Whether the environment is an unreachable or non-listening address. -/
def isUnreachableEnv : NetEnv → Bool
  | NetEnv.responds _ _ => false
  | NetEnv.refused _ _ => true
  | NetEnv.silent => true

/-- Model of axios executing a request with its `timeout` option: an
answer arriving within the timeout is delivered as is; a refused
connection fails as soon as the refusal arrives (capped by the timeout);
an answer slower than the timeout, or no answer at all, makes axios abort
the wait and reject with its timeout error at the timeout deadline.
Returns the transport outcome and the elapsed milliseconds. -/
def axiosSend (req : HttpRequest) (env : NetEnv) : Transport × Nat :=
  match env with
  | NetEnv.responds afterMs t =>
      if afterMs ≤ req.timeoutMs then (t, afterMs)
      else (Transport.netError
        ("timeout of " ++ toString req.timeoutMs ++ "ms exceeded"), req.timeoutMs)
  | NetEnv.refused afterMs m =>
      (Transport.netError m, min afterMs req.timeoutMs)
  | NetEnv.silent =>
      (Transport.netError
        ("timeout of " ++ toString req.timeoutMs ++ "ms exceeded"), req.timeoutMs)

/-- One complete dispatch: build the request from the current settings,
send it through the transport, map the outcome through the handler's
`try/catch`. Returns the IPC result and the elapsed milliseconds. -/
def dispatchCall (settings : JObj) (audioFile : String) (env : NetEnv) :
    PlayResult × Nat :=
  let r := axiosSend (playRequest settings audioFile) env
  (playAnnouncementHandler r.1, r.2)

/-- Written from the spec's words, for comparison with `saveSettingsOps`
(the definition taken from the source): an operation list persists a file
atomically when it writes the content to a temporary path and then
renames that path onto the final one. -/
def atomicReplace (ops : List FsOp) (finalPath : String) : Prop :=
  ∃ tmp content, tmp ≠ finalPath ∧
    ops = [FsOp.write tmp content, FsOp.rename tmp finalPath]

/-! ### Helper lemmas about object lookup and spread -/

theorem jGet_cons (p : String × JVal) (l : JObj) (k : String) :
    jGet (p :: l) k = if p.1 == k then some p.2 else jGet l k := by
  by_cases h : p.1 == k <;> simp [jGet, List.find?, h]

theorem jGet_spread_of_absent (a b : JObj) (k : String) (h : jGet b k = none) :
    jGet (spread a b) k = jGet a k := by
  induction a with
  | nil =>
      simp only [spread, List.filter_nil, List.nil_append]
      rw [h]
      rfl
  | cons p ps ih =>
      by_cases hk : p.1 == k
      · have hp : p.1 = k := by simpa using hk
        have hb : hasKeyB b p.1 = false := by
          simp [hasKeyB, hp, h]
        simp [spread, List.filter_cons, hb, jGet_cons, hk]
      · by_cases hb : hasKeyB b p.1
        · simpa [spread, List.filter_cons, hb, jGet_cons, hk] using ih
        · simpa [spread, List.filter_cons, hb, jGet_cons, hk] using ih

theorem jGet_spread_of_present (a b : JObj) (k : String) (v : JVal)
    (h : jGet b k = some v) :
    jGet (spread a b) k = some v := by
  induction a with
  | nil => simpa [spread, jGet] using h
  | cons p ps ih =>
      by_cases hk : p.1 == k
      · have hp : p.1 = k := by simpa using hk
        have hb : hasKeyB b p.1 = true := by
          simp [hasKeyB, hp, h]
        simpa [spread, List.filter_cons, hb] using ih
      · by_cases hb : hasKeyB b p.1
        · simpa [spread, List.filter_cons, hb, jGet_cons, hk] using ih
        · simpa [spread, List.filter_cons, hb, jGet_cons, hk] using ih

/-! ### Claim theorems -/

/-- Claim C1 (the claim fails on the code as written): for a dispatch made
while the Connection Profile stores a credential, the HTTP request the
play-announcement handler builds carries no Authorization header at all —
the code sets no headers, so no `Authorization: Bearer` value from the
profile is ever sent. -/
theorem C1_no_authorization_header :
    (playRequest [("piAddress", JVal.str "192.168.1.100"),
        ("piPort", JVal.num 8080), ("apiToken", JVal.str "secret-token")]
        "lunch.mp3").headers = [] ∧
    ((playRequest [("piAddress", JVal.str "192.168.1.100"),
        ("piPort", JVal.num 8080), ("apiToken", JVal.str "secret-token")]
        "lunch.mp3").headers.find? (fun p => p.1 == "Authorization")) = none :=
  ⟨rfl, rfl⟩

/-- Claim C2 counterexample: the dispatch result does not distinguish a
server-side rejection from a network-level failure. The handler reads only
the thrown error's message; a rejection (HTTP 409) and a network failure
carrying the same message text produce identical results, and the HTTP
status itself (409 busy versus 404 not found) leaves no trace in the
result, so no reason is identifiable from the outcome. -/
theorem C2_counterexample :
    playAnnouncementHandler (Transport.httpError 409 "boom") =
      playAnnouncementHandler (Transport.netError "boom") ∧
    playAnnouncementHandler (Transport.httpError 409 "boom") =
      playAnnouncementHandler (Transport.httpError 404 "boom") :=
  ⟨rfl, rfl⟩

/-- Claim C2 as amended: every completed dispatch yields exactly one of
two outcomes — success `true` with the fixed success message when the call
resolves, or success `false` with the transport error's message appended
to a fixed prefix; server-side rejections and network-level failures are
both mapped by the same catch-all branch to the latter form, the reason
recoverable only from the transport's message text. -/
theorem C2_amended_two_outcomes (st : Nat) (b : JObj) (m : String) :
    (playAnnouncementHandler (Transport.ok st b)).success = true ∧
    (playAnnouncementHandler (Transport.ok st b)).message =
      "Announcement sent successfully!" ∧
    playAnnouncementHandler (Transport.httpError st m) =
      PlayResult.mk false ("Failed to send announcement: " ++ m) ∧
    playAnnouncementHandler (Transport.netError m) =
      PlayResult.mk false ("Failed to send announcement: " ++ m) :=
  ⟨rfl, rfl, rfl, rfl⟩

/-- Claim C3 counterexample: the save pipeline performs no port
validation. Submitting the form with port field "not-a-port" — not an
integer in 1–65535 — still reports success, stores that string as the
port, and persists it to the settings file. -/
theorem C3_counterexample :
    ((saveSettingsHandler defaultSettings
        (saveBtnSettings "192.168.1.50" "not-a-port") WriteOutcome.ok).2.1).success =
      true ∧
    jGet (saveSettingsHandler defaultSettings
        (saveBtnSettings "192.168.1.50" "not-a-port") WriteOutcome.ok).1 "piPort" =
      some (JVal.str "not-a-port") ∧
    runOps (fun _ => none)
        (saveSettingsOps "userData"
          (saveSettingsHandler defaultSettings
            (saveBtnSettings "192.168.1.50" "not-a-port") WriteOutcome.ok).1)
        (settingsPath "userData") =
      some (stringifySettings
        (saveSettingsHandler defaultSettings
          (saveBtnSettings "192.168.1.50" "not-a-port") WriteOutcome.ok).1) :=
  ⟨by decide, by decide, by decide⟩

/-- Claim C3 as amended: the save operation validates nothing. Whatever
raw string the port form field holds is merged over the current profile,
stored as the port value, and the operation reports success. -/
theorem C3_amended (st : JObj) (addr port : String) (w : WriteOutcome) :
    ((saveSettingsHandler st (saveBtnSettings addr port) w).2.1).success = true ∧
    jGet (saveSettingsHandler st (saveBtnSettings addr port) w).1 "piPort" =
      some (JVal.str port) := by
  constructor
  · rfl
  · exact jGet_spread_of_present st _ "piPort" _
      (by simp [saveBtnSettings, jGet_cons])

/-- Claim C4 counterexample: saveSettings is not write-to-temp-then-
replace — its operation list is a single direct write to the settings
file, so no temporary file and rename occur, and a crash one character
into that write leaves the file holding a one-character fragment that is
neither the previously saved content nor the complete new profile. -/
theorem C4_counterexample :
    ¬ atomicReplace (saveSettingsOps "userData" defaultSettings)
        (settingsPath "userData") ∧
    interruptedRun
        (fun q => if q = settingsPath "userData" then some "OLD" else none)
        (saveSettingsOps "userData" defaultSettings) 1 (settingsPath "userData") =
      some "\x7b" ∧
    ("\x7b" : String) ≠ "OLD" ∧
    ("\x7b" : String) ≠ stringifySettings defaultSettings := by
  refine ⟨?_, by decide, by decide, by decide⟩
  rintro ⟨tmp, c, -, habs⟩
  simp [saveSettingsOps] at habs

/-- Claim C4 as amended: saveSettings persists the profile with one direct
write to the settings file. A run that completes stores the full
serialized profile, but a run interrupted `k` characters in leaves the
settings file holding just the first `k` characters of the new content —
a partial write, not the previously saved profile. -/
theorem C4_amended (u : String) (s : JObj) (fs : FileSys) (k : Nat) :
    runOps fs (saveSettingsOps u s) (settingsPath u) =
      some (stringifySettings s) ∧
    interruptedRun fs (saveSettingsOps u s) k (settingsPath u) =
      some ((stringifySettings s).take k) := by
  constructor
  · simp [runOps, saveSettingsOps, applyOp]
  · simp [interruptedRun, saveSettingsOps]

/-- Claim C5 counterexample: when no profile has ever been saved (the
settings file is absent at startup), get-settings returns the hard-coded
default whose address is "192.168.1.100", not the empty string, and which
has no credential field at all. -/
theorem C5_counterexample :
    jGet (getSettingsHandler (startupSettings LoadEvent.absent)) "piAddress" =
      some (JVal.str "192.168.1.100") ∧
    jGet (getSettingsHandler (startupSettings LoadEvent.absent)) "piAddress" ≠
      some (JVal.str "") ∧
    jGet (getSettingsHandler (startupSettings LoadEvent.absent)) "apiToken" =
      none :=
  ⟨by decide, by decide, by decide⟩

/-- Claim C5 as amended: when no profile has ever been saved, get-settings
returns the in-code default profile — address "192.168.1.100", port 8080,
and no credential field. The port default of 8080 holds as claimed. -/
theorem C5_amended :
    getSettingsHandler (startupSettings LoadEvent.absent) =
      [("piAddress", JVal.str "192.168.1.100"), ("piPort", JVal.num 8080)] ∧
    jGet (getSettingsHandler (startupSettings LoadEvent.absent)) "piPort" =
      some (JVal.num 8080) :=
  ⟨rfl, by decide⟩

/-- Claim C6: against an unreachable or non-listening address (connection
refused or no answer at all), a dispatch call terminates within the
configured 5000 ms timeout bound and returns the failure outcome; it never
waits beyond the timeout. -/
theorem C6_unreachable_bounded (st : JObj) (a : String) (env : NetEnv)
    (h : isUnreachableEnv env = true) :
    (dispatchCall st a env).2 ≤ (playRequest st a).timeoutMs ∧
    (playRequest st a).timeoutMs = 5000 ∧
    (dispatchCall st a env).1.success = false := by
  cases env with
  | responds afterMs t => simp [isUnreachableEnv] at h
  | refused afterMs m =>
      exact ⟨Nat.min_le_right afterMs 5000, rfl, rfl⟩
  | silent => exact ⟨le_refl _, rfl, rfl⟩

/-- Witness for C6: concrete dispatch against a silent (non-listening)
address with the default profile. -/
theorem C6_witness :
    (dispatchCall defaultSettings "lunch.mp3" NetEnv.silent).2 ≤
      (playRequest defaultSettings "lunch.mp3").timeoutMs ∧
    (playRequest defaultSettings "lunch.mp3").timeoutMs = 5000 ∧
    (dispatchCall defaultSettings "lunch.mp3" NetEnv.silent).1.success = false :=
  C6_unreachable_bounded defaultSettings "lunch.mp3" NetEnv.silent rfl

/-- Claim C7: every play request is an HTTP POST to path /play at the
configured address and port, with JSON body carrying the audio identifier
under the key "audio", and the 5000 ms timeout option. -/
theorem C7_request_shape (st : JObj) (a addr : String) (p : Int)
    (h1 : jGet st "piAddress" = some (JVal.str addr))
    (h2 : jGet st "piPort" = some (JVal.num p)) :
    (playRequest st a).method = "POST" ∧
    (playRequest st a).url = "http://" ++ addr ++ ":" ++ toString p ++ "/play" ∧
    (playRequest st a).body = [("audio", JVal.str a)] ∧
    (playRequest st a).timeoutMs = 5000 := by
  refine ⟨rfl, ?_, rfl, rfl⟩
  simp [playRequest, h1, h2, jInterp]

/-- Witness for C7: the request built from the default profile for
"lunch.mp3" targets http://192.168.1.100:8080/play. -/
theorem C7_witness :
    (playRequest defaultSettings "lunch.mp3").method = "POST" ∧
    (playRequest defaultSettings "lunch.mp3").url =
      "http://192.168.1.100:8080/play" ∧
    (playRequest defaultSettings "lunch.mp3").body =
      [("audio", JVal.str "lunch.mp3")] ∧
    (playRequest defaultSettings "lunch.mp3").timeoutMs = 5000 := by
  have h := C7_request_shape defaultSettings "lunch.mp3" "192.168.1.100" 8080
    (by decide) (by decide)
  exact ⟨h.1, by rw [h.2.1]; decide, h.2.2.1, h.2.2.2⟩

/-- Claim C8: the save-settings handler returns success for every input —
both when the filesystem write succeeds and when it throws; a write error
is only logged (by the catch inside saveSettings) and never reaches the
returned result. -/
theorem C8_save_reports_success_always (st new : JObj) (m : String) :
    (saveSettingsHandler st new WriteOutcome.ok).2.1 = SaveResult.mk true ∧
    (saveSettingsHandler st new (WriteOutcome.fsError m)).2.1 =
      SaveResult.mk true ∧
    (saveSettingsHandler st new (WriteOutcome.fsError m)).2.2 =
      ["Error saving settings: " ++ m] :=
  ⟨rfl, rfl, rfl⟩

/-- Claim C9: when the settings file cannot be read or cannot be parsed as
JSON, loadSettings lands in its catch branch and leaves the settings state
untouched, so after startup get-settings still returns the in-memory
default profile. -/
theorem C9_load_error_keeps_default (d : JObj) :
    loadSettings LoadEvent.readError d = d ∧
    loadSettings LoadEvent.parseError d = d ∧
    getSettingsHandler (startupSettings LoadEvent.readError) = defaultSettings ∧
    getSettingsHandler (startupSettings LoadEvent.parseError) = defaultSettings :=
  ⟨rfl, rfl, rfl, rfl⟩

/-- Claim C10: the save-settings handler merges the supplied object over
the current profile with object spread, so every field absent from the
argument keeps its previous value in the new settings state. -/
theorem C10_absent_fields_keep_values (st new : JObj) (k : String)
    (w : WriteOutcome) (h : jGet new k = none) :
    jGet (saveSettingsHandler st new w).1 k = jGet st k :=
  jGet_spread_of_absent st new k h

/-- Witness for C10: saving an object carrying only an address leaves the
stored port at its previous value 8080. -/
theorem C10_witness :
    jGet ([("piAddress", JVal.str "10.0.0.5")] : JObj) "piPort" = none ∧
    jGet (saveSettingsHandler defaultSettings
        [("piAddress", JVal.str "10.0.0.5")] WriteOutcome.ok).1 "piPort" =
      some (JVal.num 8080) := by
  have h := C10_absent_fields_keep_values defaultSettings
    [("piAddress", JVal.str "10.0.0.5")] "piPort" WriteOutcome.ok (by decide)
  exact ⟨by decide, by rw [h]; decide⟩

end GroomingAlert
